import Mathlib

/-!
Verification of the Background_Remover_Flask application (`remove_bg.py`).

The file shallowly embeds the Flask request handlers as pure functions over
an explicit application state:

* the SQLite `users.db` table of `User` rows becomes a list of records with
  the unique constraints of the schema enforced at commit time (a violating
  insert or update raises `IntegrityError`, modelled as a fault outcome);
* the flask_login session becomes an `Option Nat` holding the logged-in
  user id; `current_user` resolves it through the user loader;
* the filesystem under `static/uploads` and `static/processed` becomes an
  association list from paths to byte lists, writes overwriting;
* external capabilities (bcrypt, PIL decoding, rembg, PNG encoding) are a
  record of functions passed to each handler;
* a handler returns an `Outcome`: either a rendered/redirect response with
  its flashed messages, or an uncaught Python exception (`fault`) together
  with the state at the moment of the raise (file writes that already
  happened persist).
-/

namespace RemoveBg

/-- Byte content of a file. -/
abbrev Bytes := List Nat

/-- The filesystem: an association list from path to bytes. -/
abbrev Fs := List (String × Bytes)

/-- `file.save(path)` / `img.save(path)`: overwrite the entry at `path`. -/
def fsWrite (fs : Fs) (p : String) (b : Bytes) : Fs :=
  (p, b) :: fs.filter (fun e => e.1 != p)

/-- Read the bytes stored at a path, if any. -/
def fsRead (fs : Fs) (p : String) : Option Bytes :=
  (fs.find? (fun e => e.1 == p)).map (fun e => e.2)

/-- A decoded in-memory image (a PIL `Image`): dimensions, presence of an
alpha channel, and opaque pixel data. -/
structure Img where
  width : Nat
  height : Nat
  hasAlpha : Bool
  pix : List Nat
deriving Repr, DecidableEq

/-- External capabilities used by the handlers: bcrypt hashing/checking,
PIL image decoding (`Image.open`, `none` = `UnidentifiedImageError`),
the rembg `remove` transform, and PNG encoding (`img.save(format="PNG")`). -/
structure Caps where
  checkHash : String → String → Bool
  genHash : String → String
  decodeImage : Bytes → Option Img
  removeBg : Img → Img
  encodePNG : Img → Bytes

/-- A row of the `User` table: `id` primary key, `username` and `email`
unique and non-null, `password` the bcrypt digest. -/
structure UserRec where
  id : Nat
  username : String
  email : String
  password : String
deriving Repr, DecidableEq

/-- The `users.db` table. -/
abbrev Store := List UserRec

/-- The whole mutable state an handler touches: the user table, the next
autoincrement id, the flask_login session (user id), and the filesystem. -/
structure AppState where
  store : Store
  nextId : Nat
  sessionUser : Option Nat
  files : Fs
deriving Repr, DecidableEq

/-- What a handler returns to the client: flashed `(message, category)`
pairs plus either a rendered template or a redirect to an endpoint. -/
inductive Action where
  | render (template : String)
  | redirect (endpoint : String)
deriving Repr, DecidableEq

/-- A response: the flashes produced during the request and the action. -/
structure Resp where
  flashes : List (String × String)
  action : Action
deriving Repr, DecidableEq

/-- Outcome of one request: a normal response, or an uncaught Python
exception (Flask would render a 500) with the state at the raise point. -/
inductive Outcome where
  | ok (resp : Resp) (st : AppState)
  | fault (exn : String) (st : AppState)
deriving Repr, DecidableEq

/-- The state component of an outcome: side effects persist either way. -/
def outState : Outcome → AppState
  | .ok _ st => st
  | .fault _ st => st

/-- The routes the app registers (`@app.route` lines); `home` is commented
out in the source and hence absent. -/
def endpoints : List String :=
  ["index", "login", "register", "upload_image", "profile",
   "edit_profile", "logout", "static"]

/-- Flask `url_for`: `none` models the raised `BuildError` for an
endpoint that is not registered. -/
def url_for (endpoint : String) : Option String :=
  if endpoint ∈ endpoints then some ("/" ++ endpoint) else none

/-- `redirect(url_for(endpoint))` after the given flashes: a `BuildError`
from `url_for` propagates as an uncaught fault. -/
def redirectTo (endpoint : String) (flashes : List (String × String))
    (st : AppState) : Outcome :=
  match url_for endpoint with
  | some _ => .ok ⟨flashes, .redirect endpoint⟩ st
  | none => .fault ("BuildError: " ++ endpoint) st

/-- `app.config['UPLOAD_FOLDER']`. -/
def UPLOAD_FOLDER : String := "static/uploads"

/-- `app.config['PROCESSED_FOLDER']`. -/
def PROCESSED_FOLDER : String := "static/processed"

/-- flask_login's default `login_message`, flashed by `@login_required`
when it redirects an unauthenticated caller to the login view. -/
def loginMessage : String := "Please log in to access this page."

/-- `current_user`: resolve the session's user id through the
`@login_manager.user_loader` (`User.query.get`). -/
def currentUser (st : AppState) : Option UserRec :=
  match st.sessionUser with
  | none => none
  | some uid => st.store.find? (fun u => u.id == uid)

/-- `@login_required` with `login_manager.login_view = 'login'`: flash the
login message and redirect to the login endpoint. -/
def gate (st : AppState) : Outcome :=
  redirectTo "login" [(loginMessage, "message")] st

/-- Shallow rendering of the wtforms `Email()` validator: non-empty and
containing an `@`. The exact accepted shape is not load-bearing for any
claim; only `DataRequired`-style non-emptiness matters. -/
def validEmailShape (s : String) : Bool :=
  s != "" && s.data.contains '@'

/-- `LoginForm.validate_on_submit()`: `DataRequired` + `Email()` on the
email field, `DataRequired` on the password. -/
def loginFormValidates (email password : String) : Bool :=
  validEmailShape email && password != ""

/-- `RegistrationForm.validate_on_submit()`: username length 3–30, email
shape, password length at least 6, confirmation equal to the password. -/
def registerFormValidates (username email password confirm : String) : Bool :=
  decide (3 ≤ username.length) && decide (username.length ≤ 30) &&
  validEmailShape email && decide (6 ≤ password.length) &&
  confirm != "" && confirm == password

/-- The `/login` POST handler (`login` in `remove_bg.py`). -/
def login (c : Caps) (st : AppState) (email password : String) : Outcome :=
  if (currentUser st).isSome then
    redirectTo "upload_image" [] st
  else if loginFormValidates email password then
    match st.store.find? (fun u => u.email == email) with
    | some u =>
      if c.checkHash u.password password then
        redirectTo "upload_image" [("Login successful!", "success")]
          { st with sessionUser := some u.id }
      else
        .ok ⟨[("Login failed. Check email and password.", "danger")],
             .render "login.html"⟩ st
    | none =>
      .ok ⟨[("Login failed. Check email and password.", "danger")],
           .render "login.html"⟩ st
  else
    .ok ⟨[], .render "login.html"⟩ st

/-- The `/register` POST handler (`register` in `remove_bg.py`).
`db.session.add` followed by `db.session.commit()` raises an uncaught
`IntegrityError` when the new row collides with an existing `username` or
`email` (both columns are `unique=True`); nothing in the handler catches
it. -/
def register (c : Caps) (st : AppState)
    (username email password confirm : String) : Outcome :=
  if (currentUser st).isSome then
    redirectTo "home" [] st
  else if registerFormValidates username email password confirm then
    let digest := c.genHash password
    if st.store.any (fun u => u.username == username || u.email == email) then
      .fault "sqlalchemy.exc.IntegrityError: UNIQUE constraint failed" st
    else
      redirectTo "login" [("Account created successfully!", "success")]
        { st with
            store := st.store ++ [⟨st.nextId, username, email, digest⟩],
            nextId := st.nextId + 1 }
  else
    .ok ⟨[], .render "login.html"⟩ st

/-- A POST to `/upload`: whether the multipart field `image` is present,
and the `FileStorage` filename and content when it is. -/
structure UploadRequest where
  hasImageField : Bool
  filename : String
  content : Bytes
deriving Repr, DecidableEq

/-- The `/upload` POST handler (`upload_image` in `remove_bg.py`).
Saves the original to `UPLOAD_FOLDER`, reopens it with PIL, applies
`remove`, and saves the result as PNG to `PROCESSED_FOLDER`; the decode
step is not wrapped in any try/except, so a decoding failure propagates
as an uncaught exception after the raw file has already been written. -/
def upload_image (c : Caps) (st : AppState) (req : UploadRequest) : Outcome :=
  match currentUser st with
  | none => gate st
  | some _ =>
    if !req.hasImageField then
      .ok ⟨[("No file part", "danger")], .redirect "upload_image"⟩ st
    else if req.filename == "" then
      .ok ⟨[("No selected file", "danger")], .redirect "upload_image"⟩ st
    else
      let input_path := UPLOAD_FOLDER ++ "/" ++ req.filename
      let files1 := fsWrite st.files input_path req.content
      let st1 := { st with files := files1 }
      let output_filename := "no_bg_" ++ req.filename
      let output_path := PROCESSED_FOLDER ++ "/" ++ output_filename
      match fsRead files1 input_path with
      | none => .fault "FileNotFoundError" st1
      | some stored =>
        match c.decodeImage stored with
        | none => .fault "PIL.UnidentifiedImageError" st1
        | some img =>
          let processed := c.removeBg img
          let outBytes := c.encodePNG processed
          .ok ⟨[], .render "upload.html"⟩
            { st1 with files := fsWrite files1 output_path outBytes }

/-- The `/profile` GET handler. -/
def profile (st : AppState) : Outcome :=
  match currentUser st with
  | none => gate st
  | some _ => .ok ⟨[], .render "profile.html"⟩ st

/-- Row update used by a successful `db.session.commit()` after mutating
`current_user.username` / `current_user.email`. -/
def storeUpdate (store : Store) (uid : Nat) (un em : String) : Store :=
  store.map (fun v => if v.id == uid then { v with username := un, email := em } else v)

/-- The `/edit_profile` POST handler (`edit_profile` in `remove_bg.py`).
`request.form.get` yields `Option String`; the handler assigns both fields
on the in-memory `current_user` row and then commits. The commit fails
when a field is `None` (`nullable=False`) or when the new value collides
with another row's unique `username`/`email`; the bare `except` then runs
`db.session.rollback()`, which discards the pending change and expires the
instance, so any later attribute access reloads the committed (original)
values. The second component is the observable `current_user` record at
the end of the request (after that expiry/reload on failure, or the new
values on success); `none` when the gate refused the request. -/
def edit_profile (st : AppState) (username email : Option String) :
    Outcome × Option UserRec :=
  match currentUser st with
  | none => (gate st, none)
  | some u =>
    match username, email with
    | some un, some em =>
      if st.store.any (fun v => v.id != u.id && (v.username == un || v.email == em)) then
        (redirectTo "profile"
          [("Failed to update profile. Please try again.", "danger")] st, some u)
      else
        (redirectTo "profile" [("Profile updated successfully!", "success")]
          { st with store := storeUpdate st.store u.id un em },
         some { u with username := un, email := em })
    | _, _ =>
      (redirectTo "profile"
        [("Failed to update profile. Please try again.", "danger")] st, some u)

/-- The `/logout` handler: `@login_required`, then `logout_user()` and a
redirect to the login endpoint. -/
def logout (st : AppState) : Outcome :=
  match currentUser st with
  | none => gate st
  | some _ => redirectTo "login" [] { st with sessionUser := none }

/-! ### Concrete demo data for witnesses and counterexamples -/

/-- Concrete capabilities: a toy reversible hash, a toy image codec
(`width :: height :: alphaFlag :: pixels`, decoding anything else fails),
and a background remover that sets the alpha flag. -/
def demoCaps : Caps where
  checkHash := fun digest password => digest == "h:" ++ password
  genHash := fun password => "h:" ++ password
  decodeImage := fun b =>
    match b with
    | w :: h :: a :: rest =>
      if a == 0 || a == 1 then some ⟨w, h, a == 1, rest⟩ else none
    | _ => none
  removeBg := fun i => { i with hasAlpha := true }
  encodePNG := fun i =>
    i.width :: i.height :: (if i.hasAlpha then 1 else 0) :: i.pix

def alice : UserRec := ⟨1, "alice", "alice@x.com", "h:secret1"⟩

def bob : UserRec := ⟨2, "bob", "bob@x.com", "h:secret2"⟩

/-- Two registered users, nobody logged in, empty filesystem. -/
def baseState : AppState := ⟨[alice, bob], 3, none, []⟩

/-- Two registered users, alice logged in, empty filesystem. -/
def loggedIn : AppState := ⟨[alice, bob], 3, some 1, []⟩

/-! ### Filesystem lemmas -/

theorem find_after_filter (fs : Fs) (p q : String) (h : q ≠ p) :
    (fs.filter (fun e => e.1 != p)).find? (fun e => e.1 == q) =
      fs.find? (fun e => e.1 == q) := by
  have hpq : (p == q) = false := by
    simp [beq_eq_false_iff_ne]
    exact fun hh => h hh.symm
  induction fs with
  | nil => rfl
  | cons e fs ih =>
    by_cases hp : e.1 = p
    · have hq : (e.1 == q) = false := by
        simp [hp, beq_eq_false_iff_ne]
        exact fun hh => h hh.symm
      simp [List.filter_cons, hp, List.find?_cons, hq, ih, hpq]
    · by_cases hq : e.1 = q
      · simp [List.filter_cons, hp, hq, List.find?_cons, h]
      · simp [List.filter_cons, hp, hq, List.find?_cons, ih]

theorem fsRead_write_self (fs : Fs) (p : String) (b : Bytes) :
    fsRead (fsWrite fs p b) p = some b := by
  simp [fsRead, fsWrite, List.find?_cons]

theorem fsRead_write_ne (fs : Fs) (p q : String) (b : Bytes) (h : q ≠ p) :
    fsRead (fsWrite fs p b) q = fsRead fs q := by
  have hpq : (p == q) = false := by
    simp [beq_eq_false_iff_ne]
    exact fun hh => h hh.symm
  simp [fsRead, fsWrite, List.find?_cons, hpq, find_after_filter fs p q h]

/-- The derived original and processed paths never coincide: the two
roots have different lengths. -/
theorem upload_path_ne_processed_path (f : String) :
    UPLOAD_FOLDER ++ "/" ++ f ≠ PROCESSED_FOLDER ++ "/" ++ ("no_bg_" ++ f) := by
  intro h
  have hl := congrArg String.length h
  simp [String.length_append, UPLOAD_FOLDER, PROCESSED_FOLDER] at hl
  have e1 : ("static/uploads/").length = 15 := rfl
  have e2 : ("static/processed/").length = 17 := rfl
  have e3 : ("no_bg_").length = 6 := rfl
  rw [e1, e2, e3] at hl
  omega

/-! ### Computation lemmas for `redirectTo` on registered endpoints -/

theorem redirectTo_login (fl : List (String × String)) (st : AppState) :
    redirectTo "login" fl st = .ok ⟨fl, .redirect "login"⟩ st := rfl

theorem redirectTo_upload (fl : List (String × String)) (st : AppState) :
    redirectTo "upload_image" fl st = .ok ⟨fl, .redirect "upload_image"⟩ st := rfl

theorem redirectTo_profile (fl : List (String × String)) (st : AppState) :
    redirectTo "profile" fl st = .ok ⟨fl, .redirect "profile"⟩ st := rfl

theorem redirectTo_home (fl : List (String × String)) (st : AppState) :
    redirectTo "home" fl st = .fault "BuildError: home" st := rfl

/-- The demo codec is lossless: decoding an encoded image gives it back. -/
theorem demoCaps_lossless (i : Img) :
    demoCaps.decodeImage (demoCaps.encodePNG i) = some i := by
  cases i with
  | mk w h a p => cases a <;> rfl

/-! ### Claim theorems -/

/-- C4: for every pair of failing login attempts — one with an email that
has no record in the store, one with an existing email but a password the
hash check rejects — the two runs produce the same observable outcome:
the same `Login failed. Check email and password.` danger flash, the same
rendered login page, and the same unchanged state, so a caller cannot
distinguish which case occurred. -/
theorem login_failure_indistinguishable (c : Caps) (st : AppState)
    (e1 p1 e2 p2 : String) (u : UserRec)
    (hanon : currentUser st = none)
    (hv1 : loginFormValidates e1 p1 = true)
    (hv2 : loginFormValidates e2 p2 = true)
    (hnone : st.store.find? (fun v => v.email == e1) = none)
    (hfound : st.store.find? (fun v => v.email == e2) = some u)
    (hbad : c.checkHash u.password p2 = false) :
    login c st e1 p1 =
      Outcome.ok ⟨[("Login failed. Check email and password.", "danger")],
        .render "login.html"⟩ st ∧
    login c st e1 p1 = login c st e2 p2 := by
  have h1 : login c st e1 p1 =
      Outcome.ok ⟨[("Login failed. Check email and password.", "danger")],
        .render "login.html"⟩ st := by
    simp [login, hanon, hv1, hnone]
  have h2 : login c st e2 p2 =
      Outcome.ok ⟨[("Login failed. Check email and password.", "danger")],
        .render "login.html"⟩ st := by
    simp [login, hanon, hv2, hfound, hbad]
  exact ⟨h1, h1.trans h2.symm⟩

theorem login_failure_indistinguishable_witness :
    login demoCaps baseState "nobody@x.com" "pw" =
      Outcome.ok ⟨[("Login failed. Check email and password.", "danger")],
        .render "login.html"⟩ baseState ∧
    login demoCaps baseState "nobody@x.com" "pw" =
      login demoCaps baseState "alice@x.com" "wrongpw" :=
  login_failure_indistinguishable demoCaps baseState
    "nobody@x.com" "pw" "alice@x.com" "wrongpw" alice
    rfl (by decide) (by decide) (by decide) (by decide) (by decide)

/-- C5: for every request bearing no valid session identity, each of
upload, profile view, profile edit, and logout is refused without
executing its body — the state (store, session, filesystem) is returned
unchanged — and the caller is redirected to the login endpoint. -/
theorem session_gate_refuses (c : Caps) (st : AppState) (req : UploadRequest)
    (un em : Option String)
    (hanon : currentUser st = none) :
    gate st = Outcome.ok ⟨[(loginMessage, "message")], .redirect "login"⟩ st ∧
    upload_image c st req = gate st ∧
    profile st = gate st ∧
    edit_profile st un em = (gate st, none) ∧
    logout st = gate st := by
  refine ⟨redirectTo_login _ st, ?_, ?_, ?_, ?_⟩ <;>
    simp [upload_image, profile, edit_profile, logout, hanon]

theorem session_gate_refuses_witness :
    gate baseState =
      Outcome.ok ⟨[(loginMessage, "message")], .redirect "login"⟩ baseState ∧
    upload_image demoCaps baseState ⟨true, "cat.png", [9]⟩ = gate baseState ∧
    profile baseState = gate baseState ∧
    edit_profile baseState (some "x") (some "y@z.com") = (gate baseState, none) ∧
    logout baseState = gate baseState :=
  session_gate_refuses demoCaps baseState ⟨true, "cat.png", [9]⟩
    (some "x") (some "y@z.com") rfl

/-- C8: logout is idempotent. Calling logout with no valid session
(in particular immediately after a previous logout) raises no fault and
leaves the state unchanged: the gate refuses it with a redirect to login.
After any logout the session is absent, and a second logout is exactly
such a no-op. -/
theorem logout_absent (s : AppState) (habs : currentUser s = none) :
    logout s =
      Outcome.ok ⟨[(loginMessage, "message")], .redirect "login"⟩ s := by
  simp [logout, habs, gate, redirectTo_login]

theorem currentUser_after_logout (s : AppState) :
    currentUser (outState (logout s)) = none := by
  cases hc : currentUser s with
  | none =>
    simp only [logout, hc, gate, redirectTo_login, outState]
  | some u =>
    simp only [logout, hc, redirectTo_login, outState]
    rfl

theorem logout_idempotent (st st2 : AppState)
    (habs : currentUser st = none) :
    logout st =
      Outcome.ok ⟨[(loginMessage, "message")], .redirect "login"⟩ st ∧
    currentUser (outState (logout st2)) = none ∧
    logout (outState (logout st2)) =
      Outcome.ok ⟨[(loginMessage, "message")], .redirect "login"⟩
        (outState (logout st2)) :=
  ⟨logout_absent st habs, currentUser_after_logout st2,
   logout_absent _ (currentUser_after_logout st2)⟩

theorem logout_idempotent_witness :
    logout baseState =
      Outcome.ok ⟨[(loginMessage, "message")], .redirect "login"⟩ baseState ∧
    currentUser (outState (logout loggedIn)) = none ∧
    logout (outState (logout loggedIn)) =
      Outcome.ok ⟨[(loginMessage, "message")], .redirect "login"⟩
        (outState (logout loggedIn)) :=
  logout_idempotent baseState loggedIn rfl

/-- C10: a request to register from an already-authenticated session
reaches `redirect(url_for('home'))`; no endpoint named `home` is
registered (the home route is commented out), so `url_for` raises a
`BuildError` that propagates as an unhandled fault — no response is
returned and the registration form is never shown to an authenticated
caller. -/
theorem register_authenticated_build_fault (c : Caps) (st : AppState)
    (u : UserRec) (un em pw cf : String)
    (hcur : currentUser st = some u) :
    register c st un em pw cf = Outcome.fault "BuildError: home" st ∧
    url_for "home" = none := by
  constructor
  · simp [register, hcur, redirectTo_home]
  · rfl

theorem register_authenticated_build_fault_witness :
    register demoCaps loggedIn "carol" "carol@x.com" "secret99" "secret99" =
      Outcome.fault "BuildError: home" loggedIn ∧
    url_for "home" = none :=
  register_authenticated_build_fault demoCaps loggedIn alice
    "carol" "carol@x.com" "secret99" "secret99" rfl

/-- C1: for every established session, when the `edit_profile` commit
fails (a `None` form field violating `nullable=False`, or a uniqueness
conflict of the new username/email with another record), the rollback
leaves the whole state — in particular the stored record — unchanged, the
failure flash (`EditFailed`) is reported with a redirect to profile, and
the in-memory identity observed after the request equals the original
record (rollback expires the mutated instance), so any subsequently
fetched identity shows the original username and email. -/
theorem edit_profile_failure_rollback (st : AppState) (u : UserRec)
    (un em : Option String)
    (hcur : currentUser st = some u)
    (hfail : un = none ∨ em = none ∨
      ∃ a b, un = some a ∧ em = some b ∧
        st.store.any
          (fun v => v.id != u.id && (v.username == a || v.email == b)) = true) :
    edit_profile st un em =
      (Outcome.ok ⟨[("Failed to update profile. Please try again.", "danger")],
        .redirect "profile"⟩ st, some u) := by
  rcases hfail with h | h | ⟨a, b, ha, hb, hany⟩
  · subst h
    cases em <;> simp [edit_profile, hcur, redirectTo_profile]
  · subst h
    cases un <;> simp [edit_profile, hcur, redirectTo_profile]
  · subst ha; subst hb
    simp [edit_profile, hcur, hany, redirectTo_profile]

theorem edit_profile_failure_rollback_witness :
    edit_profile loggedIn (some "alice2") (some "bob@x.com") =
      (Outcome.ok ⟨[("Failed to update profile. Please try again.", "danger")],
        .redirect "profile"⟩ loggedIn, some alice) :=
  edit_profile_failure_rollback loggedIn alice
    (some "alice2") (some "bob@x.com") rfl
    (Or.inr (Or.inr ⟨"alice2", "bob@x.com", rfl, rfl, by decide⟩))

/-- C3 counterexample: registering with an email already present in the
store does not surface a `DuplicateEmail` message to the caller — the
commit raises an `IntegrityError` that nothing in the handler catches, so
the run ends in an unhandled fault, refuting the claim's "surfaced to the
caller (not an unhandled fault)" at this concrete input. -/
theorem register_duplicate_email_cex :
    register demoCaps baseState "carol" "alice@x.com" "secret99" "secret99" =
      Outcome.fault "sqlalchemy.exc.IntegrityError: UNIQUE constraint failed"
        baseState := by
  decide

/-- C3 (amended): for every register call whose email or username already
exists in the store, the form validators pass (they check no uniqueness),
and the commit raises an uncaught `IntegrityError` — an unhandled fault
rather than a surfaced duplicate-error message. The store is returned
unchanged: the existing record is not overwritten, so email and username
uniqueness is preserved. -/
theorem register_duplicate_unhandled_fault (c : Caps) (st : AppState)
    (un em pw cf : String)
    (hanon : currentUser st = none)
    (hval : registerFormValidates un em pw cf = true)
    (hdup : st.store.any (fun u => u.username == un || u.email == em) = true) :
    register c st un em pw cf =
      Outcome.fault "sqlalchemy.exc.IntegrityError: UNIQUE constraint failed"
        st := by
  simp [register, hanon, hval, hdup]

theorem register_duplicate_unhandled_fault_witness :
    register demoCaps baseState "bob" "new@x.com" "secret99" "secret99" =
      Outcome.fault "sqlalchemy.exc.IntegrityError: UNIQUE constraint failed"
        baseState :=
  register_duplicate_unhandled_fault demoCaps baseState
    "bob" "new@x.com" "secret99" "secret99" rfl (by decide) (by decide)

/-- C9: for every authenticated upload request whose file field is missing
or whose filename is empty, the handler answers with a danger flash
(`No file part` / `No selected file`, the `NoFileSelected` rejection) and
a redirect back to the upload page, and the state — in particular the
filesystem under both storage roots — is unchanged: no artifact is
written. -/
theorem upload_no_file_rejected (c : Caps) (st : AppState)
    (req : UploadRequest) (u : UserRec)
    (hcur : currentUser st = some u)
    (hmiss : req.hasImageField = false ∨ req.filename = "") :
    (upload_image c st req =
        Outcome.ok ⟨[("No file part", "danger")], .redirect "upload_image"⟩ st ∨
      upload_image c st req =
        Outcome.ok ⟨[("No selected file", "danger")], .redirect "upload_image"⟩ st) ∧
    outState (upload_image c st req) = st := by
  cases hfield : req.hasImageField with
  | false =>
    have he : upload_image c st req =
        Outcome.ok ⟨[("No file part", "danger")], .redirect "upload_image"⟩ st := by
      simp [upload_image, hcur, hfield]
    exact ⟨Or.inl he, by rw [he]; rfl⟩
  | true =>
    rcases hmiss with h | h
    · simp [hfield] at h
    · have he : upload_image c st req =
          Outcome.ok ⟨[("No selected file", "danger")], .redirect "upload_image"⟩ st := by
        simp [upload_image, hcur, hfield, h]
      exact ⟨Or.inr he, by rw [he]; rfl⟩

theorem upload_no_file_rejected_witness :
    (upload_image demoCaps loggedIn ⟨false, "cat.png", []⟩ =
        Outcome.ok ⟨[("No file part", "danger")], .redirect "upload_image"⟩
          loggedIn ∨
      upload_image demoCaps loggedIn ⟨false, "cat.png", []⟩ =
        Outcome.ok ⟨[("No selected file", "danger")], .redirect "upload_image"⟩
          loggedIn) ∧
    outState (upload_image demoCaps loggedIn ⟨false, "cat.png", []⟩) = loggedIn :=
  upload_no_file_rejected demoCaps loggedIn ⟨false, "cat.png", []⟩ alice
    rfl (Or.inl rfl)

/-- `current_user` only reads the session and the store, never the
filesystem. -/
theorem currentUser_set_files (st : AppState) (fsx : Fs) :
    currentUser { st with files := fsx } = currentUser st := rfl

/-- C2 counterexample: an authenticated upload whose stored bytes fail to
decode does not produce a categorized user-visible error — the PIL
exception escapes the handler (nothing wraps the decode in try/except),
so at this concrete input the outcome is an unhandled fault, with the raw
upload already persisted under the upload root. -/
theorem upload_decode_failure_cex :
    upload_image demoCaps loggedIn ⟨true, "cat.png", [9]⟩ =
      Outcome.fault "PIL.UnidentifiedImageError"
        ⟨[alice, bob], 3, some 1, [("static/uploads/cat.png", [9])]⟩ := by
  decide

/-- C2 (amended): for every authenticated upload whose stored bytes fail
to decode, the failure propagates out of the handler as an unhandled
fault (no categorized `UnsupportedImageFormat`/`ProcessingFailed` message
is produced); the raw upload remains persisted at the upload path, and
nothing is written at the processed path, so no processed artifact is
presented as success. -/
theorem upload_decode_failure_unhandled_fault (c : Caps) (st : AppState)
    (req : UploadRequest) (u : UserRec)
    (hcur : currentUser st = some u)
    (hfield : req.hasImageField = true)
    (hname : req.filename ≠ "")
    (hdec : c.decodeImage req.content = none) :
    upload_image c st req =
      Outcome.fault "PIL.UnidentifiedImageError"
        ⟨st.store, st.nextId, st.sessionUser,
         fsWrite st.files (UPLOAD_FOLDER ++ "/" ++ req.filename) req.content⟩ ∧
    fsRead (fsWrite st.files (UPLOAD_FOLDER ++ "/" ++ req.filename) req.content)
      (UPLOAD_FOLDER ++ "/" ++ req.filename) = some req.content ∧
    fsRead (fsWrite st.files (UPLOAD_FOLDER ++ "/" ++ req.filename) req.content)
      (PROCESSED_FOLDER ++ "/" ++ ("no_bg_" ++ req.filename)) =
      fsRead st.files (PROCESSED_FOLDER ++ "/" ++ ("no_bg_" ++ req.filename)) := by
  have hnb : (req.filename == "") = false := beq_eq_false_iff_ne.mpr hname
  refine ⟨?_, fsRead_write_self _ _ _,
    fsRead_write_ne _ _ _ _ (Ne.symm (upload_path_ne_processed_path req.filename))⟩
  simp [upload_image, hcur, hfield, hnb, fsRead_write_self, hdec]

theorem upload_decode_failure_unhandled_fault_witness :
    upload_image demoCaps loggedIn ⟨true, "dog.png", [5]⟩ =
      Outcome.fault "PIL.UnidentifiedImageError"
        ⟨loggedIn.store, loggedIn.nextId, loggedIn.sessionUser,
         fsWrite loggedIn.files (UPLOAD_FOLDER ++ "/" ++ "dog.png") [5]⟩ ∧
    fsRead (fsWrite loggedIn.files (UPLOAD_FOLDER ++ "/" ++ "dog.png") [5])
      (UPLOAD_FOLDER ++ "/" ++ "dog.png") = some [5] ∧
    fsRead (fsWrite loggedIn.files (UPLOAD_FOLDER ++ "/" ++ "dog.png") [5])
      (PROCESSED_FOLDER ++ "/" ++ ("no_bg_" ++ "dog.png")) =
      fsRead loggedIn.files (PROCESSED_FOLDER ++ "/" ++ ("no_bg_" ++ "dog.png")) :=
  upload_decode_failure_unhandled_fault demoCaps loggedIn
    ⟨true, "dog.png", [5]⟩ alice rfl rfl (by decide) rfl

/-- C6: for every successful authenticated upload with original filename
`f` — the stored bytes decode, the background remover preserves the
dimensions and yields an alpha channel, and PNG encoding is lossless —
the original artifact is persisted at `<upload_root>/f`, the processed
artifact at `<processed_root>/no_bg_f` (the processed filename is
`no_bg_` ++ `f`), and the stored processed bytes decode back to the
background-removed image, which has the original's width and height plus
an alpha channel. -/
theorem upload_success_artifacts (c : Caps) (st : AppState)
    (req : UploadRequest) (u : UserRec) (img : Img)
    (hcur : currentUser st = some u)
    (hfield : req.hasImageField = true)
    (hname : req.filename ≠ "")
    (hdec : c.decodeImage req.content = some img)
    (hdims : ∀ i : Img, (c.removeBg i).width = i.width ∧
      (c.removeBg i).height = i.height ∧ (c.removeBg i).hasAlpha = true)
    (hlossless : ∀ i : Img, c.decodeImage (c.encodePNG i) = some i) :
    upload_image c st req =
      Outcome.ok ⟨[], .render "upload.html"⟩
        ⟨st.store, st.nextId, st.sessionUser,
         fsWrite (fsWrite st.files (UPLOAD_FOLDER ++ "/" ++ req.filename) req.content)
           (PROCESSED_FOLDER ++ "/" ++ ("no_bg_" ++ req.filename))
           (c.encodePNG (c.removeBg img))⟩ ∧
    fsRead (fsWrite (fsWrite st.files (UPLOAD_FOLDER ++ "/" ++ req.filename) req.content)
        (PROCESSED_FOLDER ++ "/" ++ ("no_bg_" ++ req.filename))
        (c.encodePNG (c.removeBg img)))
      (UPLOAD_FOLDER ++ "/" ++ req.filename) = some req.content ∧
    fsRead (fsWrite (fsWrite st.files (UPLOAD_FOLDER ++ "/" ++ req.filename) req.content)
        (PROCESSED_FOLDER ++ "/" ++ ("no_bg_" ++ req.filename))
        (c.encodePNG (c.removeBg img)))
      (PROCESSED_FOLDER ++ "/" ++ ("no_bg_" ++ req.filename)) =
      some (c.encodePNG (c.removeBg img)) ∧
    c.decodeImage (c.encodePNG (c.removeBg img)) = some (c.removeBg img) ∧
    (c.removeBg img).width = img.width ∧ (c.removeBg img).height = img.height ∧
    (c.removeBg img).hasAlpha = true := by
  have hnb : (req.filename == "") = false := beq_eq_false_iff_ne.mpr hname
  obtain ⟨hw, hh, ha⟩ := hdims img
  refine ⟨?_, ?_, fsRead_write_self _ _ _, hlossless _, hw, hh, ha⟩
  · simp [upload_image, hcur, hfield, hnb, fsRead_write_self, hdec]
  · rw [fsRead_write_ne _ _ _ _ (upload_path_ne_processed_path req.filename)]
    exact fsRead_write_self _ _ _

theorem upload_success_artifacts_witness :
    upload_image demoCaps loggedIn ⟨true, "cat.png", [2, 2, 0, 7]⟩ =
      Outcome.ok ⟨[], .render "upload.html"⟩
        ⟨loggedIn.store, loggedIn.nextId, loggedIn.sessionUser,
         fsWrite (fsWrite loggedIn.files (UPLOAD_FOLDER ++ "/" ++ "cat.png") [2, 2, 0, 7])
           (PROCESSED_FOLDER ++ "/" ++ ("no_bg_" ++ "cat.png"))
           (demoCaps.encodePNG (demoCaps.removeBg ⟨2, 2, false, [7]⟩))⟩ ∧
    fsRead (fsWrite (fsWrite loggedIn.files (UPLOAD_FOLDER ++ "/" ++ "cat.png") [2, 2, 0, 7])
        (PROCESSED_FOLDER ++ "/" ++ ("no_bg_" ++ "cat.png"))
        (demoCaps.encodePNG (demoCaps.removeBg ⟨2, 2, false, [7]⟩)))
      (UPLOAD_FOLDER ++ "/" ++ "cat.png") = some [2, 2, 0, 7] ∧
    fsRead (fsWrite (fsWrite loggedIn.files (UPLOAD_FOLDER ++ "/" ++ "cat.png") [2, 2, 0, 7])
        (PROCESSED_FOLDER ++ "/" ++ ("no_bg_" ++ "cat.png"))
        (demoCaps.encodePNG (demoCaps.removeBg ⟨2, 2, false, [7]⟩)))
      (PROCESSED_FOLDER ++ "/" ++ ("no_bg_" ++ "cat.png")) =
      some (demoCaps.encodePNG (demoCaps.removeBg ⟨2, 2, false, [7]⟩)) ∧
    demoCaps.decodeImage (demoCaps.encodePNG (demoCaps.removeBg ⟨2, 2, false, [7]⟩)) =
      some (demoCaps.removeBg ⟨2, 2, false, [7]⟩) ∧
    (demoCaps.removeBg ⟨2, 2, false, [7]⟩).width = (⟨2, 2, false, [7]⟩ : Img).width ∧
    (demoCaps.removeBg ⟨2, 2, false, [7]⟩).height = (⟨2, 2, false, [7]⟩ : Img).height ∧
    (demoCaps.removeBg ⟨2, 2, false, [7]⟩).hasAlpha = true :=
  upload_success_artifacts demoCaps loggedIn ⟨true, "cat.png", [2, 2, 0, 7]⟩
    alice ⟨2, 2, false, [7]⟩ rfl rfl (by decide) rfl
    (fun _ => ⟨rfl, rfl, rfl⟩) demoCaps_lossless

/-- The state after a first successful upload of `cat.png` with demo
bytes, used by the C7 witness. -/
def firstUploadState : AppState :=
  ⟨[alice, bob], 3, some 1,
   [("static/processed/no_bg_cat.png", [2, 2, 1, 7]),
    ("static/uploads/cat.png", [2, 2, 0, 7])]⟩

/-- C7: for every two successful authenticated uploads presenting the same
original filename, the second upload succeeds and overwrites both
artifacts at the same two derived paths: afterwards the bytes at the
upload path are the second payload and the bytes at the processed path
are the PNG encoding produced from the second payload's decoded image —
no remnant of the first upload's artifacts remains readable at either
path. -/
theorem upload_same_filename_overwrites (c : Caps) (st st1 : AppState)
    (u : UserRec) (f : String) (b1 b2 : Bytes) (i1 i2 : Img)
    (hcur : currentUser st = some u)
    (hf : f ≠ "")
    (hd1 : c.decodeImage b1 = some i1)
    (hd2 : c.decodeImage b2 = some i2)
    (h1 : upload_image c st ⟨true, f, b1⟩ =
      Outcome.ok ⟨[], .render "upload.html"⟩ st1) :
    upload_image c st1 ⟨true, f, b2⟩ =
      Outcome.ok ⟨[], .render "upload.html"⟩
        (outState (upload_image c st1 ⟨true, f, b2⟩)) ∧
    fsRead (outState (upload_image c st1 ⟨true, f, b2⟩)).files
      (UPLOAD_FOLDER ++ "/" ++ f) = some b2 ∧
    fsRead (outState (upload_image c st1 ⟨true, f, b2⟩)).files
      (PROCESSED_FOLDER ++ "/" ++ ("no_bg_" ++ f)) =
      some (c.encodePNG (c.removeBg i2)) := by
  have hnb : (f == "") = false := beq_eq_false_iff_ne.mpr hf
  have he1 : upload_image c st ⟨true, f, b1⟩ =
      Outcome.ok ⟨[], .render "upload.html"⟩
        ⟨st.store, st.nextId, st.sessionUser,
         fsWrite (fsWrite st.files (UPLOAD_FOLDER ++ "/" ++ f) b1)
           (PROCESSED_FOLDER ++ "/" ++ ("no_bg_" ++ f))
           (c.encodePNG (c.removeBg i1))⟩ := by
    simp [upload_image, hcur, hnb, fsRead_write_self, hd1]
  rw [he1] at h1
  injection h1 with hresp hstate
  subst hstate
  have he2 : upload_image c
      ⟨st.store, st.nextId, st.sessionUser,
       fsWrite (fsWrite st.files (UPLOAD_FOLDER ++ "/" ++ f) b1)
         (PROCESSED_FOLDER ++ "/" ++ ("no_bg_" ++ f))
         (c.encodePNG (c.removeBg i1))⟩ ⟨true, f, b2⟩ =
      Outcome.ok ⟨[], .render "upload.html"⟩
        ⟨st.store, st.nextId, st.sessionUser,
         fsWrite (fsWrite (fsWrite (fsWrite st.files (UPLOAD_FOLDER ++ "/" ++ f) b1)
             (PROCESSED_FOLDER ++ "/" ++ ("no_bg_" ++ f))
             (c.encodePNG (c.removeBg i1)))
           (UPLOAD_FOLDER ++ "/" ++ f) b2)
           (PROCESSED_FOLDER ++ "/" ++ ("no_bg_" ++ f))
           (c.encodePNG (c.removeBg i2))⟩ := by
    simp [upload_image, currentUser_set_files, hcur, hnb, fsRead_write_self, hd2]
  rw [he2]
  refine ⟨rfl, ?_, ?_⟩
  · simp only [outState]
    rw [fsRead_write_ne _ _ _ _ (upload_path_ne_processed_path f)]
    exact fsRead_write_self _ _ _
  · simp only [outState]
    exact fsRead_write_self _ _ _

theorem upload_same_filename_overwrites_witness :
    upload_image demoCaps firstUploadState ⟨true, "cat.png", [3, 3, 1, 8, 8]⟩ =
      Outcome.ok ⟨[], .render "upload.html"⟩
        (outState (upload_image demoCaps firstUploadState
          ⟨true, "cat.png", [3, 3, 1, 8, 8]⟩)) ∧
    fsRead (outState (upload_image demoCaps firstUploadState
        ⟨true, "cat.png", [3, 3, 1, 8, 8]⟩)).files
      (UPLOAD_FOLDER ++ "/" ++ "cat.png") = some [3, 3, 1, 8, 8] ∧
    fsRead (outState (upload_image demoCaps firstUploadState
        ⟨true, "cat.png", [3, 3, 1, 8, 8]⟩)).files
      (PROCESSED_FOLDER ++ "/" ++ ("no_bg_" ++ "cat.png")) =
      some (demoCaps.encodePNG (demoCaps.removeBg ⟨3, 3, true, [8, 8]⟩)) :=
  upload_same_filename_overwrites demoCaps loggedIn firstUploadState alice
    "cat.png" [2, 2, 0, 7] [3, 3, 1, 8, 8] ⟨2, 2, false, [7]⟩ ⟨3, 3, true, [8, 8]⟩
    rfl (by decide) rfl rfl (by decide)

end RemoveBg
